import Mathlib

/-!
Shallow embedding of `shortcuts/date.py`: a thin convenience layer over
Python's `datetime` module.  Pure values model the Python objects:

* a Python `timedelta` is its exact microsecond count (an `Int`; CPython
  normalises every `timedelta` to `days/seconds/microseconds`, equivalent
  to a single signed microsecond total);
* a Python `datetime` is a wall-clock reading in microseconds together
  with an optional attached UTC offset (`none` models a naive value);
* the process clock is passed explicitly as a `Clock` value giving the
  current UTC instant and the DST-aware local offset at that instant;
* the module-level mutable `Config` class is passed explicitly as a
  `Config` value; the `DEFAULT` sentinel argument is modelled as
  `Option.none`;
* Python float arithmetic on `total_seconds()` is modelled exactly over
  `ℚ`, and Python `int()` is truncation toward zero (`truncQ`);
* `strftime` itself is external library code, so `timestamp` returns the
  resolved datetime together with the chosen format string, the exact
  pair the source hands to `strftime`.
-/

/-- Python `int(x)` applied to a real value: truncation toward zero
(floor for non-negative values, ceiling for negative ones). -/
def truncQ (q : ℚ) : ℤ := if q < 0 then ⌈q⌉ else ⌊q⌋

/-- Python `str.lower`, modelled characterwise over the string data. -/
def strLower (s : String) : String := String.mk (s.data.map Char.toLower)

/-- Python truthiness of a `str | None` value: `None` and the empty
string are falsy, every other string is truthy. -/
def strTruthy : Option String → Bool
  | none => false
  | some s => s != ""

/-- Python truthiness of a numeric-or-`None` value: `None` and zero are
falsy. -/
def numTruthy : Option ℚ → Bool
  | none => false
  | some q => q != 0

/-- A Python `timedelta`: its exact total length in microseconds. -/
structure Timedelta where
  micros : Int
deriving DecidableEq

/-- Python `abs` on a `timedelta`. -/
def tdAbs (td : Timedelta) : Timedelta := ⟨|td.micros|⟩

/-- Python `timedelta.total_seconds()`: the interval length in seconds,
fractional part preserved (modelled exactly over `ℚ`). -/
def tdTotalSeconds (td : Timedelta) : ℚ := (td.micros : ℚ) / 1000000

/-- The keyword arguments accepted by `timedelta(**intervals)` in
`_time_value` (the fixed fields of `time_in` / `time_ago`). -/
structure Intervals where
  seconds : Int
  minutes : Int
  hours : Int
  days : Int
  weeks : Int
  microseconds : Int
  milliseconds : Int
deriving DecidableEq

/-- The zero interval (every field defaulted to `0`). -/
def Intervals.zero : Intervals := ⟨0, 0, 0, 0, 0, 0, 0⟩

/-- Python `timedelta(seconds=…, minutes=…, …)`: all fields are summed
into one signed microsecond span. -/
def timedelta_kw (iv : Intervals) : Timedelta :=
  ⟨iv.microseconds + 1000 * iv.milliseconds
    + 1000000 * (iv.seconds + 60 * iv.minutes + 3600 * iv.hours
      + 86400 * iv.days + 604800 * iv.weeks)⟩

/-- A Python `datetime`: wall-clock reading in microseconds plus the
attached UTC offset (`none` = naive). -/
structure PyDatetime where
  wall : Int
  tzinfo : Option Int
deriving DecidableEq

/-- Python `datetime + timedelta`: wall-clock arithmetic, the attached
offset unchanged. -/
def dtAddTd (a : PyDatetime) (td : Timedelta) : PyDatetime :=
  ⟨a.wall + td.micros, a.tzinfo⟩

/-- Python `datetime - timedelta`: wall-clock arithmetic, the attached
offset unchanged. -/
def dtSubTd (a : PyDatetime) (td : Timedelta) : PyDatetime :=
  ⟨a.wall - td.micros, a.tzinfo⟩

/-- Python `datetime - datetime`: wall-clock difference for two naive
values, instant difference for two aware values, and a `TypeError` when
naive and aware are mixed. -/
def dtSub (a b : PyDatetime) : Except String Timedelta :=
  match a.tzinfo, b.tzinfo with
  | none, none => Except.ok ⟨a.wall - b.wall⟩
  | some x, some y => Except.ok ⟨(a.wall - x) - (b.wall - y)⟩
  | _, _ => Except.error "cannot subtract offset-naive and offset-aware datetimes"

/-- The process clock, passed explicitly: the current instant as a UTC
wall-clock microsecond reading, and the local zone's UTC offset at that
same instant (so DST rules active at the instant are reflected). -/
structure Clock where
  utcNow : Int
  localOffset : Int
deriving DecidableEq

/-- Python `datetime.now(UTC)` under clock `c`: aware, zero offset. -/
def datetime_now_utc (c : Clock) : PyDatetime := ⟨c.utcNow, some 0⟩

/-- Python `datetime.now()` under clock `c`: naive local wall clock. -/
def datetime_now_local (c : Clock) : PyDatetime :=
  ⟨c.utcNow + c.localOffset, none⟩

/-- Python `value.replace(tzinfo=None)`: strip the offset, keep wall. -/
def dtReplaceTzNone (a : PyDatetime) : PyDatetime := ⟨a.wall, none⟩

/-- Python `value.astimezone()` on a naive local value: attach the local
offset for the instant, keep the wall-clock reading. -/
def dtAstimezone (c : Clock) (a : PyDatetime) : PyDatetime :=
  ⟨a.wall, some c.localOffset⟩

/-- The module `Config` class: globally adjustable defaults (modelled as
an explicit value). -/
structure Config where
  naive : Bool
  utc : Bool
  format : Option String
deriving DecidableEq

/-- Initialisation of `Config` from the two environment variables:
`naive = getenv('SHORTCUTS_DATE_NAIVE', 'true').lower() == 'true'` and
`utc = getenv('SHORTCUTS_DATE_UTC', 'false').lower() == 'true'`;
`format` starts as `None`.  `none` models an unset variable. -/
def Config.ofEnv (naiveEnv utcEnv : Option String) : Config :=
  { naive := strLower (naiveEnv.getD "true") == "true"
    utc := strLower (utcEnv.getD "false") == "true"
    format := none }

/-- The internal resolver `_time_value(naive, utc, add, subtract,
**intervals)`.  `none` for `naive` / `utc` models the `DEFAULT`
sentinel. -/
def _time_value (c : Clock) (cfg : Config) (naive utc : Option Bool)
    (add : Bool) (subtract : Bool) (intervals : Intervals) : PyDatetime :=
  let naiveB := naive.getD cfg.naive
  let utcB := utc.getD cfg.utc
  let value :=
    if utcB then
      let v := datetime_now_utc c
      if naiveB then dtReplaceTzNone v else v
    else
      let v := datetime_now_local c
      if !naiveB then dtAstimezone c v else v
  if add then dtAddTd value (timedelta_kw intervals)
  else if subtract then dtSubTd value (timedelta_kw intervals)
  else value

/-- `time_now(*, naive=DEFAULT, utc=DEFAULT)`. -/
def time_now (c : Clock) (cfg : Config) (naive utc : Option Bool) : PyDatetime :=
  _time_value c cfg naive utc false false Intervals.zero

/-- `time_in(*, seconds=0, …, naive=DEFAULT, utc=DEFAULT)`: a datetime
value in the future. -/
def time_in (c : Clock) (cfg : Config) (iv : Intervals)
    (naive utc : Option Bool) : PyDatetime :=
  _time_value c cfg naive utc true false iv

/-- `time_ago(*, seconds=0, …, naive=DEFAULT, utc=DEFAULT)`: a datetime
value in the past. -/
def time_ago (c : Clock) (cfg : Config) (iv : Intervals)
    (naive utc : Option Bool) : PyDatetime :=
  _time_value c cfg naive utc false true iv

/-- `timestamp(format=None, *, utc=DEFAULT)`: resolves
`_time_value(naive=False, utc=utc)` and selects the format string by
truthiness of the explicit argument, then of `Config.format`, then by
`Config.naive`.  Returns the pair handed to `strftime`. -/
def timestamp (c : Clock) (cfg : Config) (format : Option String)
    (utc : Option Bool) : PyDatetime × String :=
  let now := _time_value c cfg (some false) utc false false Intervals.zero
  let fmt :=
    if strTruthy format then format.getD ""
    else if strTruthy cfg.format then cfg.format.getD ""
    else if cfg.naive then "%Y-%m-%dT%H:%M:%S.%f"
    else "%Y-%m-%dT%H:%M:%S.%f%z"
  (now, fmt)

/-- The `Duration` object state: the wrapped interval, the
`total_seconds()` magnitude stored at construction, and the memoisation
cache mapping unit name to computed integer. -/
structure Duration where
  _interval : Timedelta
  _total_seconds : ℚ
  _cache : List (String × Int)
deriving DecidableEq

/-- `Duration.__init__(interval)`: store the interval and its
total-seconds magnitude; the cache starts empty. -/
def Duration.init (interval : Timedelta) : Duration :=
  ⟨interval, tdTotalSeconds interval, []⟩

/-- The `Duration._convert.minutes` conversion constant. -/
def Duration.convert_minutes : ℚ := 60

/-- The `Duration._convert.hours` conversion constant. -/
def Duration.convert_hours : ℚ := 3600

/-- The `Duration._convert.days` conversion constant. -/
def Duration.convert_days : ℚ := 86400

/-- The `Duration._convert.weeks` conversion constant. -/
def Duration.convert_weeks : ℚ := 604800

/-- The `Duration._convert.microseconds` conversion constant. -/
def Duration.convert_microseconds : ℚ := 1000000

/-- The `Duration._convert.milliseconds` conversion constant. -/
def Duration.convert_milliseconds : ℚ := 1000

/-- `Duration._compute(unit, divide=None, multiply=None)`: return the
cached value when present; otherwise divide or multiply the stored
total-seconds magnitude, truncate toward zero with `int(…)`, cache and
return.  Returns the value together with the updated object state. -/
def Duration._compute (d : Duration) (unit : String)
    (divide multiply : Option ℚ) : Int × Duration :=
  match List.lookup unit d._cache with
  | some v => (v, d)
  | none =>
    let value := d._total_seconds
    let value :=
      if numTruthy divide then value / divide.getD 0
      else if numTruthy multiply then value * multiply.getD 0
      else value
    let v := truncQ value
    (v, { d with _cache := (unit, v) :: d._cache })

/-- The `Duration.seconds` property. -/
def Duration.seconds (d : Duration) : Int × Duration :=
  d._compute "seconds" none none

/-- The `Duration.minutes` property. -/
def Duration.minutes (d : Duration) : Int × Duration :=
  d._compute "minutes" (some Duration.convert_minutes) none

/-- The `Duration.hours` property. -/
def Duration.hours (d : Duration) : Int × Duration :=
  d._compute "hours" (some Duration.convert_hours) none

/-- The `Duration.days` property. -/
def Duration.days (d : Duration) : Int × Duration :=
  d._compute "days" (some Duration.convert_days) none

/-- The `Duration.weeks` property. -/
def Duration.weeks (d : Duration) : Int × Duration :=
  d._compute "weeks" (some Duration.convert_weeks) none

/-- The `Duration.microseconds` property. -/
def Duration.microseconds (d : Duration) : Int × Duration :=
  d._compute "microseconds" none (some Duration.convert_microseconds)

/-- The `Duration.milliseconds` property. -/
def Duration.milliseconds (d : Duration) : Int × Duration :=
  d._compute "milliseconds" none (some Duration.convert_milliseconds)

/-- `difference(value1, value2)`: the absolute interval between the two
datetimes wrapped as a `Duration` (an error of the underlying
subtraction, for mixed naive/aware arguments, propagates). -/
def difference (value1 value2 : PyDatetime) : Except String Duration :=
  (dtSub value1 value2).map (fun interval => Duration.init (tdAbs interval))

/-! ## Helper lemmas -/

theorem truncQ_nonpos {q : ℚ} (h : q ≤ 0) : truncQ q ≤ 0 := by
  rw [truncQ]
  by_cases hq : q < 0
  · rw [if_pos hq]
    exact Int.ceil_le.mpr (by exact_mod_cast h)
  · rw [if_neg hq]
    calc ⌊q⌋ ≤ ⌊(0 : ℚ)⌋ := Int.floor_le_floor h
    _ = 0 := Int.floor_zero

theorem compute_init_plain (td : Timedelta) (u : String) :
    ((Duration.init td)._compute u none none).1 = truncQ (tdTotalSeconds td) := rfl

theorem compute_init_div (td : Timedelta) (u : String) (q : ℚ) (hq : q ≠ 0) :
    ((Duration.init td)._compute u (some q) none).1
      = truncQ (tdTotalSeconds td / q) := by
  simp [Duration._compute, Duration.init, numTruthy, hq]

theorem compute_init_mul (td : Timedelta) (u : String) (q : ℚ) (hq : q ≠ 0) :
    ((Duration.init td)._compute u none (some q)).1
      = truncQ (tdTotalSeconds td * q) := by
  simp [Duration._compute, Duration.init, numTruthy, hq]

theorem tdTotalSeconds_neg {td : Timedelta} (h : td.micros < 0) :
    tdTotalSeconds td < 0 := by
  apply div_neg_of_neg_of_pos
  · exact_mod_cast h
  · norm_num

/-! ## Claim theorems -/

/-- C1: every unit accessor of a `Duration` returns the total-seconds
magnitude converted by the unit's fixed constant (seconds unchanged;
minutes, hours, days, weeks divided by 60, 3600, 86400, 604800;
milliseconds, microseconds multiplied by 1000, 1000000) and truncated
toward zero; for an interval of 3661.5 seconds the accessors give
seconds = 3661, minutes = 61, hours = 1, milliseconds = 3661500. -/
theorem duration_unit_conversion (td : Timedelta) :
    ((Duration.init td).seconds).1 = truncQ (tdTotalSeconds td) ∧
    ((Duration.init td).minutes).1 = truncQ (tdTotalSeconds td / 60) ∧
    ((Duration.init td).hours).1 = truncQ (tdTotalSeconds td / 3600) ∧
    ((Duration.init td).days).1 = truncQ (tdTotalSeconds td / 86400) ∧
    ((Duration.init td).weeks).1 = truncQ (tdTotalSeconds td / 604800) ∧
    ((Duration.init td).milliseconds).1 = truncQ (tdTotalSeconds td * 1000) ∧
    ((Duration.init td).microseconds).1 = truncQ (tdTotalSeconds td * 1000000) ∧
    ((Duration.init ⟨3661500000⟩).seconds).1 = 3661 ∧
    ((Duration.init ⟨3661500000⟩).minutes).1 = 61 ∧
    ((Duration.init ⟨3661500000⟩).hours).1 = 1 ∧
    ((Duration.init ⟨3661500000⟩).milliseconds).1 = 3661500 := by
  refine ⟨compute_init_plain td "seconds",
    compute_init_div td "minutes" _ (by norm_num [Duration.convert_minutes]),
    compute_init_div td "hours" _ (by norm_num [Duration.convert_hours]),
    compute_init_div td "days" _ (by norm_num [Duration.convert_days]),
    compute_init_div td "weeks" _ (by norm_num [Duration.convert_weeks]),
    ?_, ?_, ?_, ?_, ?_, ?_⟩
  · rw [Duration.milliseconds,
      compute_init_mul td "milliseconds" _ (by norm_num [Duration.convert_milliseconds])]
    rw [Duration.convert_milliseconds]
  · rw [Duration.microseconds,
      compute_init_mul td "microseconds" _ (by norm_num [Duration.convert_microseconds])]
    rw [Duration.convert_microseconds]
  · rw [Duration.seconds, compute_init_plain]
    norm_num [truncQ, tdTotalSeconds]
  · rw [Duration.minutes,
      compute_init_div _ "minutes" _ (by norm_num [Duration.convert_minutes])]
    norm_num [truncQ, tdTotalSeconds, Duration.convert_minutes]
  · rw [Duration.hours,
      compute_init_div _ "hours" _ (by norm_num [Duration.convert_hours])]
    norm_num [truncQ, tdTotalSeconds, Duration.convert_hours]
  · rw [Duration.milliseconds,
      compute_init_mul _ "milliseconds" _ (by norm_num [Duration.convert_milliseconds])]
    norm_num [truncQ, tdTotalSeconds, Duration.convert_milliseconds]

/-- C8: computing a unit twice yields the identical value and state both
times: once a unit is in the cache, `_compute` returns the cached value
without recomputation, and every unit accessor applied to the state left
by its first call returns exactly the result of that first call. -/
theorem duration_cache_idempotent (d : Duration) (unit : String)
    (divide multiply : Option ℚ) :
    Duration._compute (Duration._compute d unit divide multiply).2
        unit divide multiply
      = Duration._compute d unit divide multiply ∧
    (d.seconds.2).seconds = d.seconds ∧
    (d.minutes.2).minutes = d.minutes ∧
    (d.hours.2).hours = d.hours ∧
    (d.days.2).days = d.days ∧
    (d.weeks.2).weeks = d.weeks ∧
    (d.microseconds.2).microseconds = d.microseconds ∧
    (d.milliseconds.2).milliseconds = d.milliseconds := by
  have key : ∀ (e : Duration) (u : String) (dv mu : Option ℚ),
      Duration._compute (Duration._compute e u dv mu).2 u dv mu
        = Duration._compute e u dv mu := by
    intro e u dv mu
    rw [Duration._compute]
    cases h : List.lookup u e._cache with
    | some v => simp [Duration._compute, h]
    | none => simp [Duration._compute, h, List.lookup]
  exact ⟨key d unit divide multiply, key d "seconds" none none,
    key d "minutes" _ none, key d "hours" _ none, key d "days" _ none,
    key d "weeks" _ none, key d "microseconds" none _,
    key d "milliseconds" none _⟩

/-- C10: a `Duration` built directly from a negative interval propagates
the sign instead of clamping to zero: every unit accessor is nonpositive,
and for an interval of -90 seconds, seconds = -90 and minutes = -1
(truncation toward zero, not a floor to -2). -/
theorem duration_negative_sign (td : Timedelta) (h : td.micros < 0) :
    ((Duration.init td).seconds).1 ≤ 0 ∧
    ((Duration.init td).minutes).1 ≤ 0 ∧
    ((Duration.init td).hours).1 ≤ 0 ∧
    ((Duration.init td).days).1 ≤ 0 ∧
    ((Duration.init td).weeks).1 ≤ 0 ∧
    ((Duration.init td).milliseconds).1 ≤ 0 ∧
    ((Duration.init td).microseconds).1 ≤ 0 ∧
    ((Duration.init ⟨-90000000⟩).seconds).1 = -90 ∧
    ((Duration.init ⟨-90000000⟩).minutes).1 = -1 := by
  have hts : tdTotalSeconds td < 0 := tdTotalSeconds_neg h
  have hdiv : ∀ q : ℚ, 0 < q → tdTotalSeconds td / q ≤ 0 :=
    fun q hq => le_of_lt (div_neg_of_neg_of_pos hts hq)
  have hmul : ∀ q : ℚ, 0 < q → tdTotalSeconds td * q ≤ 0 :=
    fun q hq => le_of_lt (mul_neg_of_neg_of_pos hts hq)
  refine ⟨?_, ?_, ?_, ?_, ?_, ?_, ?_, ?_, ?_⟩
  · rw [Duration.seconds, compute_init_plain]
    exact truncQ_nonpos (le_of_lt hts)
  · rw [Duration.minutes,
      compute_init_div td "minutes" _ (by norm_num [Duration.convert_minutes])]
    exact truncQ_nonpos (hdiv _ (by norm_num [Duration.convert_minutes]))
  · rw [Duration.hours,
      compute_init_div td "hours" _ (by norm_num [Duration.convert_hours])]
    exact truncQ_nonpos (hdiv _ (by norm_num [Duration.convert_hours]))
  · rw [Duration.days,
      compute_init_div td "days" _ (by norm_num [Duration.convert_days])]
    exact truncQ_nonpos (hdiv _ (by norm_num [Duration.convert_days]))
  · rw [Duration.weeks,
      compute_init_div td "weeks" _ (by norm_num [Duration.convert_weeks])]
    exact truncQ_nonpos (hdiv _ (by norm_num [Duration.convert_weeks]))
  · rw [Duration.milliseconds,
      compute_init_mul td "milliseconds" _ (by norm_num [Duration.convert_milliseconds])]
    exact truncQ_nonpos (hmul _ (by norm_num [Duration.convert_milliseconds]))
  · rw [Duration.microseconds,
      compute_init_mul td "microseconds" _ (by norm_num [Duration.convert_microseconds])]
    exact truncQ_nonpos (hmul _ (by norm_num [Duration.convert_microseconds]))
  · rw [Duration.seconds, compute_init_plain]
    rw [tdTotalSeconds, truncQ, if_pos (by norm_num), Int.ceil_eq_iff]
    norm_num
  · rw [Duration.minutes,
      compute_init_div _ "minutes" _ (by norm_num [Duration.convert_minutes])]
    rw [tdTotalSeconds, Duration.convert_minutes, truncQ,
      if_pos (by norm_num), Int.ceil_eq_iff]
    norm_num

/-- C10 witness: the theorem applied to the concrete interval of -90
seconds (-90000000 microseconds). -/
theorem duration_negative_sign_witness :
    ((Duration.init ⟨-90000000⟩).seconds).1 ≤ 0 ∧
    ((Duration.init ⟨-90000000⟩).minutes).1 ≤ 0 ∧
    ((Duration.init ⟨-90000000⟩).hours).1 ≤ 0 ∧
    ((Duration.init ⟨-90000000⟩).days).1 ≤ 0 ∧
    ((Duration.init ⟨-90000000⟩).weeks).1 ≤ 0 ∧
    ((Duration.init ⟨-90000000⟩).milliseconds).1 ≤ 0 ∧
    ((Duration.init ⟨-90000000⟩).microseconds).1 ≤ 0 ∧
    ((Duration.init ⟨-90000000⟩).seconds).1 = -90 ∧
    ((Duration.init ⟨-90000000⟩).minutes).1 = -1 :=
  duration_negative_sign ⟨-90000000⟩ (by decide)

/-- C2: whenever the subtraction of two datetimes is defined, the two
argument orders of `difference` produce the same `Duration`, wrapping
the absolute value of the subtraction, and this wrapped interval is
never negative. -/
theorem difference_comm_nonneg (a b : PyDatetime) (td : Timedelta)
    (h : dtSub a b = Except.ok td) :
    difference a b = Except.ok (Duration.init (tdAbs td)) ∧
    difference b a = Except.ok (Duration.init (tdAbs td)) ∧
    0 ≤ (tdAbs td).micros := by
  obtain ⟨wa, ta⟩ := a
  obtain ⟨wb, tb⟩ := b
  have habs : ∀ x : Int, tdAbs ⟨x⟩ = tdAbs ⟨-x⟩ := by
    intro x
    simp [tdAbs, abs_neg]
  cases ta with
  | none =>
    cases tb with
    | none =>
      simp only [dtSub, Except.ok.injEq] at h
      subst h
      refine ⟨rfl, ?_, abs_nonneg _⟩
      have : (⟨wb - wa⟩ : Timedelta) = ⟨-(wa - wb)⟩ := by
        congr 1
        ring
      simp [difference, dtSub, Except.map, this, ← habs]
    | some y =>
      simp [dtSub] at h
  | some x =>
    cases tb with
    | none =>
      simp [dtSub] at h
    | some y =>
      simp only [dtSub, Except.ok.injEq] at h
      subst h
      refine ⟨rfl, ?_, abs_nonneg _⟩
      have : (⟨wb - y - (wa - x)⟩ : Timedelta) = ⟨-(wa - x - (wb - y))⟩ := by
        congr 1
        ring
      simp [difference, dtSub, Except.map, this, ← habs]

/-- C2 witness: the theorem applied to two concrete naive datetimes five
seconds apart. -/
theorem difference_comm_nonneg_witness :
    difference ⟨0, none⟩ ⟨5000000, none⟩
      = Except.ok (Duration.init (tdAbs ⟨0 - 5000000⟩)) ∧
    difference ⟨5000000, none⟩ ⟨0, none⟩
      = Except.ok (Duration.init (tdAbs ⟨0 - 5000000⟩)) ∧
    0 ≤ (tdAbs ⟨0 - 5000000⟩).micros :=
  difference_comm_nonneg ⟨0, none⟩ ⟨5000000, none⟩ ⟨0 - 5000000⟩ rfl

/-- C3: `timestamp` always resolves an aware (non-naive) datetime
internally, whatever the arguments and configuration; and the format
string is chosen by precedence: a non-empty explicit argument wins
unconditionally, otherwise a non-empty `Config.format` is used,
otherwise the naive default pattern when `Config.naive` is true and the
aware default pattern when it is false. -/
theorem timestamp_aware_format_precedence (c : Clock) (cfg : Config)
    (f : Option String) (u : Option Bool) (ch ch2 : Char)
    (cs cs2 : List Char) (n b : Bool) :
    ((timestamp c cfg f u).1.tzinfo).isSome = true ∧
    (timestamp c cfg (some (String.mk (ch :: cs))) u).2
      = String.mk (ch :: cs) ∧
    (timestamp c ⟨n, b, some (String.mk (ch2 :: cs2))⟩ none u).2
      = String.mk (ch2 :: cs2) ∧
    (timestamp c ⟨true, b, none⟩ none u).2 = "%Y-%m-%dT%H:%M:%S.%f" ∧
    (timestamp c ⟨false, b, none⟩ none u).2 = "%Y-%m-%dT%H:%M:%S.%f%z" := by
  have hne : ∀ (x : Char) (xs : List Char),
      strTruthy (some (String.mk (x :: xs))) = true := by
    intro x xs
    simp [strTruthy, String.ext_iff]
  refine ⟨?_, ?_, ?_, ?_, ?_⟩
  · cases hu : u.getD cfg.utc with
    | false =>
      simp [timestamp, _time_value, hu, datetime_now_local, dtAstimezone]
    | true =>
      simp [timestamp, _time_value, hu, datetime_now_utc]
  · simp [timestamp, hne]
  · simp [timestamp, strTruthy, String.ext_iff]
  · simp [timestamp, strTruthy]
  · simp [timestamp, strTruthy]

/-- C9: an empty-string explicit format argument is falsy, so
`timestamp` behaves exactly as if no format argument were given,
falling through to `Config.format` or the default patterns. -/
theorem timestamp_empty_format (c : Clock) (cfg : Config) (u : Option Bool) :
    timestamp c cfg (some "") u = timestamp c cfg none u := rfl

/-- C4: the two seeding environment variables are parsed by
case-insensitive comparison with "true": an unset variable yields the
defaults naive = true and utc = false, a set variable yields true
exactly when it lowercases to "true", and any casing of "false" for
`SHORTCUTS_DATE_NAIVE` yields naive = false. -/
theorem config_env_parsing (e s : Option String) (t v : String)
    (hv : strLower v = "false") :
    (Config.ofEnv none none).naive = true ∧
    (Config.ofEnv none none).utc = false ∧
    ((Config.ofEnv (some t) e).naive = true ↔ strLower t = "true") ∧
    ((Config.ofEnv s (some t)).utc = true ↔ strLower t = "true") ∧
    (Config.ofEnv (some v) e).naive = false := by
  refine ⟨by decide, by decide, ?_, ?_, ?_⟩
  · simp [Config.ofEnv]
  · simp [Config.ofEnv]
  · simp [Config.ofEnv, hv]

/-- C4 witness: the theorem applied at unset variables, the value
"TRUE", and the mixed-case value "FaLsE". -/
theorem config_env_parsing_witness :
    (Config.ofEnv none none).naive = true ∧
    (Config.ofEnv none none).utc = false ∧
    ((Config.ofEnv (some "TRUE") none).naive = true
      ↔ strLower "TRUE" = "true") ∧
    ((Config.ofEnv none (some "TRUE")).utc = true
      ↔ strLower "TRUE" = "true") ∧
    (Config.ofEnv (some "FaLsE") none).naive = false :=
  config_env_parsing none none "TRUE" "FaLsE" (by decide)

/-- C5: `time_in` equals the resolved current time shifted forward by
the single signed span summing all interval fields, and `time_ago` is
the mirror, shifting the same resolved time backward by the same span;
the wall-clock displacement is exactly the span's microsecond total in
both directions. -/
theorem time_shift_sum_mirror (c : Clock) (cfg : Config) (iv : Intervals)
    (naive utc : Option Bool) :
    time_in c cfg iv naive utc
      = dtAddTd (time_now c cfg naive utc) (timedelta_kw iv) ∧
    time_ago c cfg iv naive utc
      = dtSubTd (time_now c cfg naive utc) (timedelta_kw iv) ∧
    (time_in c cfg iv naive utc).wall - (time_now c cfg naive utc).wall
      = (timedelta_kw iv).micros ∧
    (time_now c cfg naive utc).wall - (time_ago c cfg iv naive utc).wall
      = (timedelta_kw iv).micros := by
  have hin : time_in c cfg iv naive utc
      = dtAddTd (time_now c cfg naive utc) (timedelta_kw iv) := rfl
  have hago : time_ago c cfg iv naive utc
      = dtSubTd (time_now c cfg naive utc) (timedelta_kw iv) := rfl
  refine ⟨hin, hago, ?_, ?_⟩
  · rw [hin, dtAddTd]
    ring
  · rw [hago, dtSubTd]
    ring

/-- C6: `time_now` with naive = true returns a value with no attached
offset; with naive = false it returns an attached zero offset when
utc = true and the clock's DST-aware local offset when utc = false. -/
theorem time_now_tzinfo (c : Clock) (cfg : Config) (u : Option Bool) :
    (time_now c cfg (some true) u).tzinfo = none ∧
    (time_now c cfg (some false) (some true)).tzinfo = some 0 ∧
    (time_now c cfg (some false) (some false)).tzinfo
      = some c.localOffset := by
  refine ⟨?_, rfl, rfl⟩
  cases hu : u.getD cfg.utc with
  | false =>
    simp [time_now, _time_value, hu, datetime_now_local]
  | true =>
    simp [time_now, _time_value, hu, datetime_now_utc, dtReplaceTzNone]

/-- C7: in every resolver call (`time_now`, `time_in`, `time_ago`) an
omitted naive argument resolves to `Config.naive` and an omitted utc
argument resolves to `Config.utc`. -/
theorem resolver_config_defaults (c : Clock) (cfg : Config)
    (n u : Option Bool) (iv : Intervals) :
    time_now c cfg none u = time_now c cfg (some cfg.naive) u ∧
    time_now c cfg n none = time_now c cfg n (some cfg.utc) ∧
    time_in c cfg iv none u = time_in c cfg iv (some cfg.naive) u ∧
    time_in c cfg iv n none = time_in c cfg iv n (some cfg.utc) ∧
    time_ago c cfg iv none u = time_ago c cfg iv (some cfg.naive) u ∧
    time_ago c cfg iv n none = time_ago c cfg iv n (some cfg.utc) :=
  ⟨rfl, rfl, rfl, rfl, rfl, rfl⟩
